import Mathlib

/-!
Shallow embedding of src/src/bot_sipd.py (class SIPDBot).

The browser-automation primitives (Playwright calls: goto, wait_for, click,
type, press, expect_download, save_as, context/browser close) are external
collaborators; each call site is modelled by an environment field giving the
outcome of that call (success, or the Python exception it raises).  Every
embedded method returns the ordered trace of primitive interactions it
performed (the Event list) together with its observable outcome, mirroring
the try/except structure of the source line by line.  The per-period result
list of download_realisasi models the per-period outcome report the code
emits (one outcome print per loop iteration); the fatal field models the
whole-batch except handlers at the bottom of download_realisasi.
-/

/-- Python exceptions that the modelled call sites can raise.
playwrightTimeout models playwright TimeoutError; indexError models
IndexError; other models any other Exception.  All three are subclasses of
Exception in Python, and only playwrightTimeout is a TimeoutError, and only
indexError is an IndexError, which is what the except-clause dispatch below
relies on. -/
inductive PyError : Type
  | playwrightTimeout (msg : String)
  | indexError (msg : String)
  | other (msg : String)
deriving DecidableEq, Repr

/-- Message carried by a Python exception, as interpolated by the except
handlers via f-strings. -/
def PyError.msg : PyError → String
  | .playwrightTimeout m => m
  | .indexError m => m
  | .other m => m

/-- Primitive interactions performed against the browser page (and the
teardown calls).  Session-level events carry the Nat handle of the page,
context or browser they act on; orchestrator-level events carry the period
index they belong to. -/
inductive Event : Type
  | launchBrowser (fresh : Nat)
  | gotoUrl (page : Nat) (url : String) (timeoutMs : Nat)
  | bringToFront (page : Nat)
  | promptUser
  | waitMenu (page : Nat) (timeoutMs : Nat)
  | addCookies
  | contextClose (ctx : Nat)
  | browserClose (br : Nat)
  | gotoPage (url : String)
  | waitTitle
  | skpdWait
  | skpdClick
  | skpdType (text : String)
  | skpdPress
  | bulanWait (period : Int) (timeoutMs : Nat)
  | bulanClick (period : Int)
  | bulanType (period : Int) (text : String)
  | bulanPress (period : Int)
  | expectDownload (period : Int) (timeoutMs : Nat)
  | downloadBtnClick (period : Int)
  | saveAs (path : String)
deriving DecidableEq, Repr

/-- Reason component of a failed per-period attempt, following the three
per-period except branches of download_realisasi. -/
inductive FailReason : Type
  | downloadTimeout (msg : String)
  | invalidPeriod
  | unexpected (msg : String)
deriving DecidableEq, Repr

/-- Outcome recorded for one period of download_realisasi: the success
print with the saved path, or the failure print of the except branch that
handled the period. -/
inductive DownloadAttemptResult : Type
  | success (savedPath : String)
  | failed (reason : FailReason)
deriving DecidableEq, Repr

/-- Outcome of the two whole-batch except handlers at the bottom of
download_realisasi: except PlaywrightTimeoutError prints a page-load-timeout
diagnostic, except Exception prints a critical-error diagnostic.  Both
handlers swallow the exception: the method itself returns normally. -/
inductive Fatal : Type
  | pageLoadTimeout (msg : String)
  | critical (msg : String)
deriving DecidableEq, Repr

/-- Dispatch of the two whole-batch except clauses of download_realisasi:
PlaywrightTimeoutError is caught first, every other Exception (IndexError
included) falls to the generic handler. -/
def toFatal : PyError → Fatal
  | .playwrightTimeout m => .pageLoadTimeout m
  | .indexError m => .critical m
  | .other m => .critical m

/-- URL constant _URL_LOGIN of class SIPDBot. -/
def _URL_LOGIN : String := "https://sipd.kemendagri.go.id/penatausahaan/login"

/-- URL constant _URL_PENATAUSAHAAN of class SIPDBot. -/
def _URL_PENATAUSAHAAN : String := "https://sipd.kemendagri.go.id/penatausahaan"

/-- URL constant _URL_PENATAUSAHAAN_REALISASI of class SIPDBot. -/
def _URL_PENATAUSAHAAN_REALISASI : String :=
  _URL_PENATAUSAHAAN ++ "/penatausahaan/pengeluaran/laporan/realisasi"

/-- Modelled from the spec: display names of the twelve calendar months
used by src.utils.get_month_name, which is not under src/.  The listing
page combo input receives the display name of the selected month. -/
def month_names : List String :=
  ["Januari", "Februari", "Maret", "April", "Mei", "Juni",
   "Juli", "Agustus", "September", "Oktober", "November", "Desember"]

/-- Display name looked up for period i (meaningful for i in 1..12). -/
def month_display (i : Int) : String := month_names.getD (i - 1).toNat ""

/-- Modelled from the spec: src.utils.get_month_name is not under src/.
Per the spec, a period index outside 1..12 has no corresponding display
label and the lookup raises; the orchestrator catches IndexError for
invalid months (the source comment on the except clause says it catches
invalid month values), so the failure is modelled as an IndexError. -/
def get_month_name (i : Int) : Except PyError String :=
  if 1 ≤ i ∧ i ≤ 12 then .ok (month_display i)
  else .error (.indexError "month index out of range")

/-- Directory name computed in download_realisasi:
f-string Laporan Realisasi followed by get_current_date().  The current
date is supplied by the environment (runDate). -/
def download_dir (currentDate : String) : String :=
  "Laporan Realisasi " ++ currentDate

/-- Zero-padded two-digit rendering of the period index, as the Python
format spec 02 produces for width two. -/
def pad2 (i : Int) : String :=
  let s := toString i
  if s.length < 2 then "0" ++ s else s

/-- File name computed in download_realisasi: fixed year token 2024, the
two-digit period index, and a fixed suffix. -/
def download_name (i : Int) : String :=
  "2024-" ++ pad2 i ++ "-Laporan Realisasi.xlsx"

/-- Modelled from the spec: src.utils.PathHelper.get_output_path is not
under src/.  Per the spec output naming contract it deterministically joins
the output directory and the file name into one path. -/
def get_output_path (output_dir file_name : String) : String :=
  output_dir ++ "/" ++ file_name

/-- Full output path computed in download_realisasi for period i on the
given run date. -/
def download_path (currentDate : String) (i : Int) : String :=
  get_output_path (download_dir currentDate) (download_name i)

deriving instance DecidableEq for Except

/-- Outcomes of the per-period primitive calls of download_realisasi for
one period: the month-filter interactions (wait_for with 60s timeout,
click, type, press Enter), the download button click inside the
expect_download block, the download-started wait (120s timeout) and the
save_as call. -/
structure PeriodEnv : Type where
  bulanWait : Except PyError Unit
  bulanClick : Except PyError Unit
  bulanType : Except PyError Unit
  bulanPress : Except PyError Unit
  btnClick : Except PyError Unit
  downloadWait : Except PyError Unit
  saveAs : Except PyError Unit
deriving DecidableEq, Repr

/-- Environment of one download_realisasi call: outcomes of the pre-loop
primitive calls (goto to the realisasi URL, title landmark wait, the four
SKPD filter interactions), the current date returned by get_current_date,
and the per-period outcomes. -/
structure Env : Type where
  gotoRealisasi : Except PyError Unit
  titleWait : Except PyError Unit
  skpdWait : Except PyError Unit
  skpdClick : Except PyError Unit
  skpdType : Except PyError Unit
  skpdPress : Except PyError Unit
  runDate : String
  period : Int → PeriodEnv

/-- Sequencing of two traced fallible computations: if the first raises,
the second is not executed and its events are not emitted (Python
statement sequencing under exceptions). -/
def seqE {α : Type} (a : List Event × Except PyError Unit)
    (b : List Event × Except PyError α) : List Event × Except PyError α :=
  match a with
  | (tr, .error e) => (tr, .error e)
  | (tr, .ok _) => (tr ++ b.1, b.2)

/-- One primitive call: emits its event and yields the outcome the
environment assigns to it. -/
def step (ev : Event) (r : Except PyError Unit) :
    List Event × Except PyError Unit := ([ev], r)

/-- Pre-loop part of download_realisasi (source lines 182-191): goto the
realisasi URL, wait for the Laporan Realisasi title, then the SKPD filter:
wait, click, type Unduh Semua SKPD, press Enter. -/
def preLoop (env : Env) : List Event × Except PyError Unit :=
  seqE (step (.gotoPage _URL_PENATAUSAHAAN_REALISASI) env.gotoRealisasi)
    (seqE (step .waitTitle env.titleWait)
      (seqE (step .skpdWait env.skpdWait)
        (seqE (step .skpdClick env.skpdClick)
          (seqE (step (.skpdType "Unduh Semua SKPD") env.skpdType)
            (step .skpdPress env.skpdPress)))))

/-- Month-filter phase for period i (source lines 198-202): wait_for the
bulan combo input with a 60s timeout, click it, evaluate get_month_name(i)
(which raises IndexError for an invalid period, before any text is typed),
type the display name, press Enter. -/
def bulanPhase (p : PeriodEnv) (i : Int) : List Event × Except PyError Unit :=
  seqE (step (.bulanWait i 60000) p.bulanWait)
    (seqE (step (.bulanClick i) p.bulanClick)
      (match get_month_name i with
       | .error e => ([], .error e)
       | .ok name =>
           seqE (step (.bulanType i name) p.bulanType)
             (step (.bulanPress i) p.bulanPress)))

/-- Download phase for period i (source lines 204-225): enter the
expect_download context (120s timeout), click the Download button inside
it, await the download-started signal, then compute the deterministic
output path from the run date and the period index and save the artifact
there.  Any step raising aborts the remainder of the phase. -/
def downloadPhase (env : Env) (p : PeriodEnv) (i : Int) :
    List Event × Except PyError DownloadAttemptResult :=
  match p.btnClick with
  | .error e => ([.expectDownload i 120000, .downloadBtnClick i], .error e)
  | .ok _ =>
    match p.downloadWait with
    | .error e => ([.expectDownload i 120000, .downloadBtnClick i], .error e)
    | .ok _ =>
      let path := download_path env.runDate i
      match p.saveAs with
      | .error e =>
          ([.expectDownload i 120000, .downloadBtnClick i, .saveAs path],
           .error e)
      | .ok _ =>
          ([.expectDownload i 120000, .downloadBtnClick i, .saveAs path],
           .ok (.success path))

/-- Inner except clause of the download phase (source lines 227-230): a
PlaywrightTimeoutError is caught, the failure is reported for this period
(the handler prints a download-failed line and a Retrying line but, per
the TODO in the source, performs no retry); every other exception
propagates to the per-period handlers. -/
def downloadPhaseCaught (env : Env) (p : PeriodEnv) (i : Int) :
    List Event × Except PyError DownloadAttemptResult :=
  match downloadPhase env p i with
  | (tr, .error (.playwrightTimeout m)) =>
      (tr, .ok (.failed (.downloadTimeout m)))
  | (tr, .error (.indexError m)) => (tr, .error (.indexError m))
  | (tr, .error (.other m)) => (tr, .error (.other m))
  | (tr, .ok r) => (tr, .ok r)

/-- Body of the per-period try (source lines 196-230): the month-filter
phase followed by the guarded download phase. -/
def periodBody (env : Env) (i : Int) :
    List Event × Except PyError DownloadAttemptResult :=
  seqE (bulanPhase (env.period i) i) (downloadPhaseCaught env (env.period i) i)

/-- One loop iteration of download_realisasi with its two per-period
except clauses (source lines 232-239): IndexError is recorded as the
invalid-month outcome, any other Exception as the unexpected-error
outcome, and iteration continues either way. -/
def attemptPeriod (env : Env) (i : Int) : List Event × DownloadAttemptResult :=
  match periodBody env i with
  | (tr, .ok r) => (tr, r)
  | (tr, .error (.indexError _)) => (tr, .failed .invalidPeriod)
  | (tr, .error (.playwrightTimeout m)) => (tr, .failed (.unexpected m))
  | (tr, .error (.other m)) => (tr, .failed (.unexpected m))

/-- Periods visited by the loop: range(start_month, end_month + 1), in
ascending order, empty when end_month < start_month. -/
def periodList (start_month end_month : Int) : List Int :=
  (List.range (end_month + 1 - start_month).toNat).map
    (fun (k : Nat) => start_month + (k : Int))

/-- The for loop of download_realisasi over the remaining periods,
accumulating each iteration's events and recording one outcome per
period. -/
def runLoop (env : Env) : List Int → List Event × List (Int × DownloadAttemptResult)
  | [] => ([], [])
  | i :: rest =>
    let this := attemptPeriod env i
    let next := runLoop env rest
    (this.1 ++ next.1, (i, this.2) :: next.2)

/-- Observable behaviour of one download_realisasi call: the ordered trace
of primitive interactions, the per-period outcomes in loop order, and the
whole-batch handler outcome (none when no fatal exception was caught; the
method itself always returns normally because both bottom handlers swallow
the exception after printing). -/
structure RunOutput : Type where
  events : List Event
  results : List (Int × DownloadAttemptResult)
  fatal : Option Fatal
deriving DecidableEq, Repr

/-- Embedding of SIPDBot.download_realisasi (source lines 162-245).  The
outer try runs the pre-loop navigation and filter phase and then the
per-period loop; an exception escaping the pre-loop (or the loop, which
cannot happen since every per-period exception is handled inside the loop)
is caught by the bottom handlers and recorded as the fatal outcome. -/
def download_realisasi (env : Env) (start_month end_month : Int) : RunOutput :=
  match preLoop env with
  | (tr, .error e) => ⟨tr, [], some (toFatal e)⟩
  | (tr, .ok _) =>
    let loop := runLoop env (periodList start_month end_month)
    ⟨tr ++ loop.1, loop.2, none⟩

/-- Proposition that the pre-loop phase of download_realisasi raises no
exception, so the per-period loop is reached. -/
def preLoopOk (env : Env) : Prop := (preLoop env).2 = Except.ok ()

/-- Browser-session fields of a SIPDBot instance: self.browser,
self.context, self.page, each None until _initialize_browser assigns it.
Handles are opaque Nat identities. -/
structure BotState : Type where
  browser : Option Nat
  context : Option Nat
  page : Option Nat
deriving DecidableEq, Repr

/-- SIPDBot.__init__ (source lines 26-29): all three fields start as None. -/
def SIPDBot_init : BotState := ⟨none, none, none⟩

/-- Embedding of SIPDBot._initialize_browser (source lines 31-50):
launches the browser and assigns fresh browser, context and page handles,
overwriting whatever the fields held. -/
def _initialize_browser (fresh : Nat) (_st : BotState) : List Event × BotState :=
  ([.launchBrowser fresh],
   ⟨some fresh, some (fresh + 1), some (fresh + 2)⟩)

/-- Outcomes of the primitive calls made by login_manual, plus the fresh
handle base used if _initialize_browser runs. -/
structure ManualEnv : Type where
  fresh : Nat
  gotoLogin : Except PyError Unit
  menuWait : Except PyError Unit
deriving DecidableEq, Repr

/-- Embedding of SIPDBot.login_manual (source lines 52-69): initializes
the browser only when self.page is None, then goto the login URL (120s
timeout), bring the page to front, block on the human acknowledgement
prompt, and wait for the Akuntansi menu landmark (120s timeout).  The
method has no try clause: any exception propagates to the caller. -/
def login_manual (env : ManualEnv) (st : BotState) :
    List Event × BotState × Except PyError Unit :=
  let init := if st.page.isSome then ([], st) else _initialize_browser env.fresh st
  let st' := init.2
  let p := st'.page.getD 0
  match env.gotoLogin with
  | .error e => (init.1 ++ [.gotoUrl p _URL_LOGIN 120000], st', .error e)
  | .ok _ =>
    match env.menuWait with
    | .error e =>
        (init.1 ++ [.gotoUrl p _URL_LOGIN 120000, .bringToFront p, .promptUser,
          .waitMenu p 120000], st', .error e)
    | .ok _ =>
        (init.1 ++ [.gotoUrl p _URL_LOGIN 120000, .bringToFront p, .promptUser,
          .waitMenu p 120000], st', .ok ())

/-- Outcome of reading and parsing cookies.json in login_with_cookies:
the file loads as valid JSON, is missing (FileNotFoundError), holds
invalid JSON (json.JSONDecodeError), or raises some other exception. -/
inductive CookieLoad : Type
  | loaded
  | fileNotFound
  | jsonDecodeError
  | otherError (msg : String)
deriving DecidableEq, Repr

/-- Outcomes of the primitive calls made by login_with_cookies. -/
structure CookiesEnv : Type where
  fresh : Nat
  load : CookieLoad
  addCookies : Except PyError Unit
  gotoLogin : Except PyError Unit
deriving DecidableEq, Repr

/-- Which except branch of login_with_cookies ran, if any: the method
catches FileNotFoundError, json.JSONDecodeError and Exception, prints a
distinct diagnostic in each branch, and always returns normally. -/
inductive CookieOutcome : Type
  | success
  | sourceMissing
  | formatError
  | unexpected (msg : String)
deriving DecidableEq, Repr

/-- Embedding of SIPDBot.login_with_cookies (source lines 122-151):
initializes the browser only when self.page is None, then inside the try
opens and parses cookies.json, injects the cookies into the context, and
goto the login URL (default timeout).  FileNotFoundError from the open,
json.JSONDecodeError from the parse, and any other Exception are each
caught and reported by a distinct printed diagnostic; the browser session
is left untouched and the method returns normally in every case. -/
def login_with_cookies (env : CookiesEnv) (st : BotState) :
    List Event × BotState × CookieOutcome :=
  let init := if st.page.isSome then ([], st) else _initialize_browser env.fresh st
  let st' := init.2
  let p := st'.page.getD 0
  match env.load with
  | .fileNotFound => (init.1, st', .sourceMissing)
  | .jsonDecodeError => (init.1, st', .formatError)
  | .otherError m => (init.1, st', .unexpected m)
  | .loaded =>
    match env.addCookies with
    | .error e => (init.1 ++ [.addCookies], st', .unexpected e.msg)
    | .ok _ =>
      match env.gotoLogin with
      | .error e =>
          (init.1 ++ [.addCookies, .gotoUrl p _URL_LOGIN 30000], st',
           .unexpected e.msg)
      | .ok _ =>
          (init.1 ++ [.addCookies, .gotoUrl p _URL_LOGIN 30000], st', .success)

/-- Outcomes of the two teardown calls of close_browser. -/
structure CloseEnv : Type where
  contextClose : Except PyError Unit
  browserClose : Except PyError Unit
deriving DecidableEq, Repr

/-- Embedding of SIPDBot.close_browser (source lines 153-160): if
self.context is set, close it; then, if self.browser is set, close it.
The guards test only for absence (None); the method has no try clause, so
an exception raised by the context close propagates and the browser close
is never attempted.  No field is reset: the state is returned unchanged. -/
def close_browser (env : CloseEnv) (st : BotState) :
    List Event × BotState × Except PyError Unit :=
  match st.context with
  | some c =>
    (match env.contextClose with
     | .error e => ([.contextClose c], st, .error e)
     | .ok _ =>
       match st.browser with
       | some b =>
         (match env.browserClose with
          | .error e => ([.contextClose c, .browserClose b], st, .error e)
          | .ok _ => ([.contextClose c, .browserClose b], st, .ok ()))
       | none => ([.contextClose c], st, .ok ()))
  | none =>
    match st.browser with
    | some b =>
      (match env.browserClose with
       | .error e => ([.browserClose b], st, .error e)
       | .ok _ => ([.browserClose b], st, .ok ()))
    | none => ([], st, .ok ())

/-- Per-period environment in which every primitive call succeeds. -/
def okPeriodEnv : PeriodEnv :=
  ⟨.ok (), .ok (), .ok (), .ok (), .ok (), .ok (), .ok ()⟩

/-- Orchestrator environment in which every primitive call succeeds. -/
def okEnv : Env :=
  { gotoRealisasi := .ok (), titleWait := .ok (), skpdWait := .ok (),
    skpdClick := .ok (), skpdType := .ok (), skpdPress := .ok (),
    runDate := "2024-05-01", period := fun _ => okPeriodEnv }

/-- Results accumulated by the loop: one outcome per visited period, keyed
by that period and computed from that period alone. -/
theorem runLoop_results (env : Env) (l : List Int) :
    (runLoop env l).2 = l.map (fun i => (i, (attemptPeriod env i).2)) := by
  induction l with
  | nil => rfl
  | cons i rest ih => simp [runLoop, ih]

/-- Unfolding of download_realisasi when the pre-loop phase succeeds. -/
theorem download_realisasi_run (env : Env) (s e : Int) (h : preLoopOk env) :
    download_realisasi env s e =
      ⟨(preLoop env).1 ++ (runLoop env (periodList s e)).1,
       (periodList s e).map (fun i => (i, (attemptPeriod env i).2)), none⟩ := by
  unfold download_realisasi
  unfold preLoopOk at h
  rcases hpe : preLoop env with ⟨tr, r⟩
  rw [hpe] at h
  cases r with
  | error e' => simp at h
  | ok u => simp [hpe, runLoop_results]

/-- Length of the visited-period list. -/
theorem periodList_length (s e : Int) :
    (periodList s e).length = (e + 1 - s).toNat := by
  rw [periodList, List.length_map, List.length_range]

/-- An empty range visits no period. -/
theorem periodList_nil (s e : Int) (h : e < s) : periodList s e = [] := by
  have h0 : (e + 1 - s).toNat = 0 := by omega
  simp [periodList, h0]

/-- Membership in the visited-period list. -/
theorem mem_periodList (s e i : Int) : i ∈ periodList s e ↔ s ≤ i ∧ i ≤ e := by
  simp only [periodList, List.mem_map, List.mem_range]
  constructor
  · rintro ⟨k, hk, rfl⟩
    constructor
    · omega
    · omega
  · intro hi
    exact ⟨(i - s).toNat, by omega, by omega⟩

/-- The visited periods are pairwise distinct. -/
theorem periodList_nodup (s e : Int) : (periodList s e).Nodup := by
  rw [periodList]
  refine List.Nodup.map ?_ (List.nodup_range _)
  intro a b hab
  simp only [] at hab
  omega

/-- The visited periods are in strictly ascending order. -/
theorem periodList_pairwise (s e : Int) :
    (periodList s e).Pairwise (· < ·) := by
  rw [periodList]
  refine List.Pairwise.map _ ?_ (List.pairwise_lt_range _)
  intro a b hab
  omega

/-- The trace of one loop iteration equals the trace of its try body: the
per-period except clauses perform no interaction of their own. -/
theorem attemptPeriod_events (env : Env) (i : Int) :
    (attemptPeriod env i).1 = (periodBody env i).1 := by
  rcases h : periodBody env i with ⟨tr, r⟩
  cases r with
  | ok r => simp [attemptPeriod, h]
  | error e' => cases e' <;> simp [attemptPeriod, h]

/-- The inner timeout handler adds no interaction to the download phase. -/
theorem downloadPhaseCaught_events (env : Env) (p : PeriodEnv) (i : Int) :
    (downloadPhaseCaught env p i).1 = (downloadPhase env p i).1 := by
  rcases h : downloadPhase env p i with ⟨tr, r⟩
  cases r with
  | ok r => simp [downloadPhaseCaught, h]
  | error e' => cases e' <;> simp [downloadPhaseCaught, h]

/-- No download-button click happens during the month-filter phase. -/
theorem bulanPhase_no_click (p : PeriodEnv) (i k : Int) :
    Event.downloadBtnClick k ∉ (bulanPhase p i).1 := by
  unfold bulanPhase
  rcases h1 : p.bulanWait with e1 | u1 <;>
  rcases h2 : p.bulanClick with e2 | u2 <;>
  rcases h3 : get_month_name i with e3 | n3 <;>
  rcases h4 : p.bulanType with e4 | u4 <;>
  rcases h5 : p.bulanPress with e5 | u5 <;>
  simp_all [seqE, step]

/-- A download-button click in the download phase carries this period. -/
theorem downloadPhase_click (env : Env) (p : PeriodEnv) (i k : Int)
    (h : Event.downloadBtnClick k ∈ (downloadPhase env p i).1) : k = i := by
  unfold downloadPhase at h
  rcases h6 : p.btnClick with e6 | u6 <;>
  rcases h7 : p.downloadWait with e7 | u7 <;>
  rcases h8 : p.saveAs with e8 | u8 <;>
  simp_all

/-- A download-button click in one loop iteration carries that period. -/
theorem attemptPeriod_click (env : Env) (i k : Int)
    (h : Event.downloadBtnClick k ∈ (attemptPeriod env i).1) : k = i := by
  rw [attemptPeriod_events] at h
  unfold periodBody at h
  rcases hb : bulanPhase (env.period i) i with ⟨tr, r⟩
  rw [hb] at h
  cases r with
  | error e' =>
    simp only [seqE] at h
    have hnc := bulanPhase_no_click (env.period i) i k
    rw [hb] at hnc
    exact absurd h hnc
  | ok u =>
    simp only [seqE, List.mem_append] at h
    rcases h with h | h
    · have hnc := bulanPhase_no_click (env.period i) i k
      rw [hb] at hnc
      exact absurd h hnc
    · rw [downloadPhaseCaught_events] at h
      exact downloadPhase_click env (env.period i) i k h

/-- A foreign period's iteration clicks the download button zero times for
this period. -/
theorem attemptPeriod_click_count_ne (env : Env) (i k : Int) (hk : k ≠ i) :
    ((attemptPeriod env i).1.count (Event.downloadBtnClick k)) = 0 :=
  List.count_eq_zero.mpr (fun hmem => hk (attemptPeriod_click env i k hmem))

/-- A loop that never visits period k clicks its download button zero
times. -/
theorem runLoop_click_count_notmem (env : Env) (k : Int) (l : List Int)
    (h : k ∉ l) :
    ((runLoop env l).1.count (Event.downloadBtnClick k)) = 0 := by
  induction l with
  | nil => rfl
  | cons i rest ih =>
    have hki : k ≠ i := fun hh => h (hh ▸ List.mem_cons_self i rest)
    have hkr : k ∉ rest := fun hh => h (List.mem_cons_of_mem i hh)
    simp [runLoop, List.count_append,
          attemptPeriod_click_count_ne env i k hki, ih hkr]

/-- A loop visiting period k once, whose iteration clicks the download
button once, clicks it exactly once in total: no retry happens anywhere in
the batch. -/
theorem runLoop_click_count_one (env : Env) (k : Int) (l : List Int)
    (hnd : l.Nodup) (hmem : k ∈ l)
    (h1 : ((attemptPeriod env k).1.count (Event.downloadBtnClick k)) = 1) :
    ((runLoop env l).1.count (Event.downloadBtnClick k)) = 1 := by
  induction l with
  | nil => cases hmem
  | cons i rest ih =>
    rcases List.mem_cons.mp hmem with rfl | hk
    · have hnr : k ∉ rest := (List.nodup_cons.mp hnd).1
      simp [runLoop, List.count_append, h1,
            runLoop_click_count_notmem env k rest hnr]
    · have hne : k ≠ i := by
        rintro rfl
        exact (List.nodup_cons.mp hnd).1 hk
      simp [runLoop, List.count_append,
            attemptPeriod_click_count_ne env i k hne,
            ih (List.nodup_cons.mp hnd).2 hk]

/-- When the pre-loop phase succeeds its trace is exactly the navigation,
the title wait and the four SKPD filter interactions, in source order. -/
theorem preLoop_events_ok (env : Env) (h : preLoopOk env) :
    (preLoop env).1 =
      [.gotoPage _URL_PENATAUSAHAAN_REALISASI, .waitTitle, .skpdWait,
       .skpdClick, .skpdType "Unduh Semua SKPD", .skpdPress] := by
  unfold preLoopOk at h
  unfold preLoop at *
  rcases h1 : env.gotoRealisasi with e1 | u1 <;>
  rcases h2 : env.titleWait with e2 | u2 <;>
  rcases h3 : env.skpdWait with e3 | u3 <;>
  rcases h4 : env.skpdClick with e4 | u4 <;>
  rcases h5 : env.skpdType with e5 | u5 <;>
  rcases h6 : env.skpdPress with e6 | u6 <;>
  simp_all [seqE, step]

/-- Every pre-loop event is one of the six pre-loop interactions: the
pre-loop phase touches no period filter and no download control. -/
theorem preLoop_events_shape (env : Env) (ev : Event)
    (hev : ev ∈ (preLoop env).1) :
    ev = .gotoPage _URL_PENATAUSAHAAN_REALISASI ∨ ev = .waitTitle ∨
    ev = .skpdWait ∨ ev = .skpdClick ∨
    ev = .skpdType "Unduh Semua SKPD" ∨ ev = .skpdPress := by
  unfold preLoop at hev
  rcases h1 : env.gotoRealisasi with e1 | u1 <;>
  rcases h2 : env.titleWait with e2 | u2 <;>
  rcases h3 : env.skpdWait with e3 | u3 <;>
  rcases h4 : env.skpdClick with e4 | u4 <;>
  rcases h5 : env.skpdType with e5 | u5 <;>
  rcases h6 : env.skpdPress with e6 | u6 <;>
  simp_all [seqE, step] <;> tauto

/-- Evaluation of one loop iteration whose month filter works, whose month
is valid and whose download-started wait times out: the inner handler
records the download-timeout failure and performs no retry. -/
theorem attemptPeriod_timeout (env : Env) (i : Int) (m : String)
    (hm : 1 ≤ i ∧ i ≤ 12)
    (hw : (env.period i).bulanWait = .ok ())
    (hc : (env.period i).bulanClick = .ok ())
    (ht : (env.period i).bulanType = .ok ())
    (hp : (env.period i).bulanPress = .ok ())
    (hb : (env.period i).btnClick = .ok ())
    (hd : (env.period i).downloadWait = .error (.playwrightTimeout m)) :
    attemptPeriod env i =
      ([.bulanWait i 60000, .bulanClick i, .bulanType i (month_display i),
        .bulanPress i, .expectDownload i 120000, .downloadBtnClick i],
       .failed (.downloadTimeout m)) := by
  simp [attemptPeriod, periodBody, bulanPhase, downloadPhaseCaught,
        downloadPhase, seqE, step, get_month_name, hm, hw, hc, ht, hp, hb, hd]

/-- Evaluation of one loop iteration for an invalid period whose combo
wait and click work: get_month_name raises IndexError before any text is
typed and the per-period IndexError handler records the invalid-month
failure. -/
theorem attemptPeriod_invalid (env : Env) (i : Int)
    (hm : ¬(1 ≤ i ∧ i ≤ 12))
    (hw : (env.period i).bulanWait = .ok ())
    (hc : (env.period i).bulanClick = .ok ()) :
    attemptPeriod env i =
      ([.bulanWait i 60000, .bulanClick i], .failed .invalidPeriod) := by
  simp [attemptPeriod, periodBody, bulanPhase, downloadPhaseCaught,
        downloadPhase, seqE, step, get_month_name, hm, hw, hc]

/-- Evaluation of one loop iteration in which every primitive call
succeeds for a valid month: the artifact is saved at the deterministic
output path and the success outcome records that path. -/
theorem attemptPeriod_success (env : Env) (i : Int)
    (hm : 1 ≤ i ∧ i ≤ 12) (henv : env.period i = okPeriodEnv) :
    attemptPeriod env i =
      ([.bulanWait i 60000, .bulanClick i, .bulanType i (month_display i),
        .bulanPress i, .expectDownload i 120000, .downloadBtnClick i,
        .saveAs (download_path env.runDate i)],
       .success (download_path env.runDate i)) := by
  simp [attemptPeriod, periodBody, bulanPhase, downloadPhaseCaught,
        downloadPhase, seqE, step, get_month_name, hm, henv, okPeriodEnv]

/-- An interaction performed by a visited period's iteration appears in
the loop trace. -/
theorem runLoop_events_mem (env : Env) (l : List Int) (i : Int) (ev : Event)
    (hi : i ∈ l) (hev : ev ∈ (attemptPeriod env i).1) :
    ev ∈ (runLoop env l).1 := by
  induction l with
  | nil => cases hi
  | cons j rest ih =>
    rcases List.mem_cons.mp hi with rfl | hi2
    · simp only [runLoop, List.mem_append]
      exact Or.inl hev
    · simp only [runLoop, List.mem_append]
      exact Or.inr (ih hi2)

/-- close_browser never assigns the browser, context or page fields: the
state it returns is the state it was given, whatever the close calls do. -/
theorem close_browser_state (env : CloseEnv) (st : BotState) :
    (close_browser env st).2.1 = st := by
  unfold close_browser
  rcases hc : st.context with _ | c <;>
  rcases hb : st.browser with _ | b <;>
  rcases h1 : env.contextClose with e1 | u1 <;>
  rcases h2 : env.browserClose with e2 | u2 <;>
  simp_all

/-- When self.page is already set, login_manual skips _initialize_browser
(no browser launch happens), navigates that very page to the login URL,
and leaves the fields unchanged. -/
theorem login_manual_skip_init (menv : ManualEnv) (st : BotState) (p : Nat)
    (hp : st.page = some p) :
    (∀ h, Event.launchBrowser h ∉ (login_manual menv st).1)
    ∧ Event.gotoUrl p _URL_LOGIN 120000 ∈ (login_manual menv st).1
    ∧ (login_manual menv st).2.1 = st := by
  unfold login_manual
  rcases hg : menv.gotoLogin with e1 | u1 <;>
  rcases hw : menv.menuWait with e2 | u2 <;>
  simp_all

/-- C1: for every period range and every per-period behaviour, once the
pre-loop phase succeeds the loop records exactly one outcome for every
period of the range, each computed from that period alone, and no
per-period exception reaches the whole-batch handlers: an exception in one
period's handling never prevents the attempts at the subsequent periods. -/
theorem C1_period_isolation (env : Env) (s e : Int) (hpre : preLoopOk env) :
    (download_realisasi env s e).results =
      (periodList s e).map (fun i => (i, (attemptPeriod env i).2))
    ∧ (download_realisasi env s e).fatal = none
    ∧ ∀ i ∈ periodList s e,
        (i, (attemptPeriod env i).2) ∈ (download_realisasi env s e).results := by
  rw [download_realisasi_run env s e hpre]
  refine ⟨rfl, rfl, ?_⟩
  intro i hi
  exact List.mem_map_of_mem _ hi

/-- Environment identical to okEnv except that every primitive call of
period 2 raises an unexpected non-timeout error. -/
def boomEnv : Env :=
  { okEnv with
    period := fun i =>
      if i = 2 then
        ⟨.error (.other "boom"), .error (.other "boom"), .error (.other "boom"),
         .error (.other "boom"), .error (.other "boom"), .error (.other "boom"),
         .error (.other "boom")⟩
      else okPeriodEnv }

/-- C1 witness: range 1..3 with period 2 raising an unexpected error. -/
theorem C1_period_isolation_witness :
    preLoopOk boomEnv ∧
    ((download_realisasi boomEnv 1 3).results =
      (periodList 1 3).map (fun i => (i, (attemptPeriod boomEnv i).2))
    ∧ (download_realisasi boomEnv 1 3).fatal = none
    ∧ ∀ i ∈ periodList 1 3,
        (i, (attemptPeriod boomEnv i).2) ∈ (download_realisasi boomEnv 1 3).results) :=
  ⟨by unfold preLoopOk; decide,
   C1_period_isolation boomEnv 1 3 (by unfold preLoopOk; decide)⟩

/-- C5: for a valid range, once the pre-loop phase succeeds the result
sequence has end - start + 1 entries, keyed exactly by the periods of the
range in strictly ascending order. -/
theorem C5_length_and_order (env : Env) (s e : Int) (hse : s ≤ e)
    (hpre : preLoopOk env) :
    (download_realisasi env s e).results.length = (e - s + 1).toNat
    ∧ (download_realisasi env s e).results.map Prod.fst = periodList s e
    ∧ ((download_realisasi env s e).results.map Prod.fst).Pairwise (· < ·) := by
  rw [download_realisasi_run env s e hpre]
  refine ⟨?_, ?_, ?_⟩
  · rw [List.length_map, periodList_length]
    omega
  · simp only [List.map_map]
    have hcomp : (Prod.fst ∘ fun i => (i, (attemptPeriod env i).2)) =
        fun i : Int => i := by
      funext i
      rfl
    rw [hcomp]
    exact List.map_id' (periodList s e)
  · simp only [List.map_map]
    have : (Prod.fst ∘ fun i => (i, (attemptPeriod env i).2)) = fun i : Int => i := by
      funext i
      rfl
    rw [this]
    simpa using periodList_pairwise s e

/-- C5 witness: the all-success environment on range 1..3. -/
theorem C5_length_and_order_witness :
    ((1 : Int) ≤ 3 ∧ preLoopOk okEnv) ∧
    ((download_realisasi okEnv 1 3).results.length = ((3 : Int) - 1 + 1).toNat
    ∧ (download_realisasi okEnv 1 3).results.map Prod.fst = periodList 1 3
    ∧ ((download_realisasi okEnv 1 3).results.map Prod.fst).Pairwise (· < ·)) :=
  ⟨⟨by decide, by unfold preLoopOk; decide⟩,
   C5_length_and_order okEnv 1 3 (by decide) (by unfold preLoopOk; decide)⟩

/-- C6: a period with no corresponding month label (outside 1..12, below
as well as above) whose combo interactions work is recorded as the
invalid-month failure, nothing is raised past the loop, and every other
period still gets its own independently computed result. -/
theorem C6_invalid_period_isolated (env : Env) (s e i : Int)
    (hpre : preLoopOk env) (hi : i ∈ periodList s e)
    (hm : ¬(1 ≤ i ∧ i ≤ 12))
    (hw : (env.period i).bulanWait = .ok ())
    (hc : (env.period i).bulanClick = .ok ()) :
    (i, DownloadAttemptResult.failed .invalidPeriod)
        ∈ (download_realisasi env s e).results
    ∧ (download_realisasi env s e).fatal = none
    ∧ ∀ j ∈ periodList s e,
        (j, (attemptPeriod env j).2) ∈ (download_realisasi env s e).results := by
  rw [download_realisasi_run env s e hpre]
  refine ⟨?_, rfl, ?_⟩
  · refine List.mem_map.mpr ⟨i, hi, ?_⟩
    simp [attemptPeriod_invalid env i hm hw hc]
  · intro j hj
    exact List.mem_map_of_mem _ hj

/-- C6 witness: range 10..14, in which period 13 has no month label. -/
theorem C6_invalid_period_isolated_witness :
    (preLoopOk okEnv ∧ (13 : Int) ∈ periodList 10 14
      ∧ ¬((1 : Int) ≤ 13 ∧ (13 : Int) ≤ 12)
      ∧ (okEnv.period 13).bulanWait = .ok ()
      ∧ (okEnv.period 13).bulanClick = .ok ()) ∧
    (((13 : Int), DownloadAttemptResult.failed .invalidPeriod)
        ∈ (download_realisasi okEnv 10 14).results
    ∧ (download_realisasi okEnv 10 14).fatal = none
    ∧ ∀ j ∈ periodList 10 14,
        (j, (attemptPeriod okEnv j).2) ∈ (download_realisasi okEnv 10 14).results) :=
  ⟨⟨by unfold preLoopOk; decide, by decide, by decide, by decide, by decide⟩,
   C6_invalid_period_isolated okEnv 10 14 13 (by unfold preLoopOk; decide)
     (by decide) (by decide) (by decide) (by decide)⟩

/-- C2: a download-started timeout at a visited period with a valid month
and working filter interactions is recorded as the download-timeout
failure for that period; the bounded 120s wait was used; the download
button of that period is clicked exactly once in the whole batch (no
automatic retry); nothing reaches the whole-batch handlers; and the next
period, when in range, still gets its own independently computed result. -/
theorem C2_timeout_no_retry (env : Env) (s e i : Int) (m : String)
    (hpre : preLoopOk env) (hi : i ∈ periodList s e)
    (hm : 1 ≤ i ∧ i ≤ 12)
    (hw : (env.period i).bulanWait = .ok ())
    (hc : (env.period i).bulanClick = .ok ())
    (ht : (env.period i).bulanType = .ok ())
    (hp : (env.period i).bulanPress = .ok ())
    (hb : (env.period i).btnClick = .ok ())
    (hd : (env.period i).downloadWait = .error (.playwrightTimeout m)) :
    (i, DownloadAttemptResult.failed (.downloadTimeout m))
        ∈ (download_realisasi env s e).results
    ∧ Event.expectDownload i 120000 ∈ (download_realisasi env s e).events
    ∧ (download_realisasi env s e).events.count (Event.downloadBtnClick i) = 1
    ∧ (download_realisasi env s e).fatal = none
    ∧ (i + 1 ≤ e →
        (i + 1, (attemptPeriod env (i + 1)).2)
          ∈ (download_realisasi env s e).results) := by
  have hap := attemptPeriod_timeout env i m hm hw hc ht hp hb hd
  rw [download_realisasi_run env s e hpre]
  refine ⟨?_, ?_, ?_, rfl, ?_⟩
  · refine List.mem_map.mpr ⟨i, hi, ?_⟩
    simp [hap]
  · simp only []
    refine List.mem_append.mpr (Or.inr ?_)
    refine runLoop_events_mem env _ i _ hi ?_
    rw [hap]
    simp
  · simp only [List.count_append]
    have hzero : (preLoop env).1.count (Event.downloadBtnClick i) = 0 := by
      refine List.count_eq_zero.mpr ?_
      intro hmem
      rcases preLoop_events_shape env _ hmem with h | h | h | h | h | h <;>
        simp at h
    have hone :
        ((runLoop env (periodList s e)).1.count (Event.downloadBtnClick i)) = 1 := by
      refine runLoop_click_count_one env i _ (periodList_nodup s e) hi ?_
      rw [hap]
      simp [List.count_cons]
    rw [hzero, hone]
  · intro hnext
    have hi1 : i + 1 ∈ periodList s e := by
      rw [mem_periodList] at hi ⊢
      omega
    exact List.mem_map_of_mem _ hi1

/-- Per-period environment whose download-started wait times out. -/
def timeoutPeriodEnv : PeriodEnv :=
  { okPeriodEnv with
    downloadWait := .error (.playwrightTimeout "Timeout 120000ms exceeded") }

/-- Environment identical to okEnv except that period 2 times out waiting
for its download to start. -/
def timeoutEnv : Env :=
  { okEnv with period := fun i => if i = 2 then timeoutPeriodEnv else okPeriodEnv }

/-- C2 witness: range 1..3 with period 2 timing out. -/
theorem C2_timeout_no_retry_witness :
    (preLoopOk timeoutEnv ∧ (2 : Int) ∈ periodList 1 3
      ∧ ((1 : Int) ≤ 2 ∧ (2 : Int) ≤ 12)
      ∧ (timeoutEnv.period 2).bulanWait = .ok ()
      ∧ (timeoutEnv.period 2).bulanClick = .ok ()
      ∧ (timeoutEnv.period 2).bulanType = .ok ()
      ∧ (timeoutEnv.period 2).bulanPress = .ok ()
      ∧ (timeoutEnv.period 2).btnClick = .ok ()
      ∧ (timeoutEnv.period 2).downloadWait =
          .error (.playwrightTimeout "Timeout 120000ms exceeded")) ∧
    (((2 : Int), DownloadAttemptResult.failed
          (.downloadTimeout "Timeout 120000ms exceeded"))
        ∈ (download_realisasi timeoutEnv 1 3).results
    ∧ Event.expectDownload 2 120000 ∈ (download_realisasi timeoutEnv 1 3).events
    ∧ (download_realisasi timeoutEnv 1 3).events.count (Event.downloadBtnClick 2) = 1
    ∧ (download_realisasi timeoutEnv 1 3).fatal = none
    ∧ ((2 : Int) + 1 ≤ 3 →
        ((2 : Int) + 1, (attemptPeriod timeoutEnv (2 + 1)).2)
          ∈ (download_realisasi timeoutEnv 1 3).results)) :=
  ⟨⟨by unfold preLoopOk; decide, by decide, by decide, by decide, by decide,
     by decide, by decide, by decide, by decide⟩,
   C2_timeout_no_retry timeoutEnv 1 3 2 "Timeout 120000ms exceeded"
     (by unfold preLoopOk; decide) (by decide) (by decide) (by decide)
     (by decide) (by decide) (by decide) (by decide) (by decide)⟩

/-- Environment whose navigation to the listing page times out. -/
def navTimeoutEnv : Env :=
  { okEnv with gotoRealisasi := .error (.playwrightTimeout "nav timeout") }

/-- Environment whose navigation raises a non-timeout error. -/
def navErrorEnv : Env :=
  { okEnv with gotoRealisasi := .error (.other "connection refused") }

/-- C3: when navigation to the listing page fails, the batch aborts at
once (no filter interaction, no per-period result) and the two bottom
handlers record distinguishable fatal diagnostics; but the method returns
normally in both cases, a RunOutput value carrying only the printed
diagnostic: no exception or error value reaches the caller, contradicting
the claimed propagation (and the docstring of download_realisasi, which
documents raising on critical errors). -/
theorem C3_nav_failure_not_raised :
    download_realisasi navTimeoutEnv 1 3 =
      ⟨[Event.gotoPage _URL_PENATAUSAHAAN_REALISASI], [],
       some (.pageLoadTimeout "nav timeout")⟩
    ∧ download_realisasi navErrorEnv 1 3 =
      ⟨[Event.gotoPage _URL_PENATAUSAHAAN_REALISASI], [],
       some (.critical "connection refused")⟩
    ∧ Fatal.pageLoadTimeout "nav timeout" ≠ Fatal.critical "nav timeout" := by
  refine ⟨?_, ?_, ?_⟩ <;> decide

/-- C4 counterexample: on the inverted range start 2, end 1 the batch
produces no per-period result, yet the shared all-units SKPD filter is
still clicked and typed into, refuting the claim that no filter
interaction is performed. -/
theorem C4_counterexample :
    (download_realisasi okEnv 2 1).results = []
    ∧ Event.skpdClick ∈ (download_realisasi okEnv 2 1).events
    ∧ Event.skpdType "Unduh Semua SKPD" ∈ (download_realisasi okEnv 2 1).events := by
  refine ⟨?_, ?_, ?_⟩ <;> decide

/-- C4 amended: for start greater than end the result sequence is empty
and no period filter (and no download control) is ever touched; the
navigation, title wait and shared all-units filter interaction still run
before the loop, the filter being selected whenever the pre-loop phase
succeeds. -/
theorem C4_empty_range (env : Env) (s e : Int) (h : e < s) :
    (download_realisasi env s e).results = []
    ∧ (∀ i t, Event.bulanWait i t ∉ (download_realisasi env s e).events)
    ∧ (∀ i, Event.bulanClick i ∉ (download_realisasi env s e).events)
    ∧ (∀ i n, Event.bulanType i n ∉ (download_realisasi env s e).events)
    ∧ (∀ i, Event.bulanPress i ∉ (download_realisasi env s e).events)
    ∧ (∀ i t, Event.expectDownload i t ∉ (download_realisasi env s e).events)
    ∧ (∀ i, Event.downloadBtnClick i ∉ (download_realisasi env s e).events)
    ∧ (preLoopOk env → Event.skpdClick ∈ (download_realisasi env s e).events) := by
  have hnil : periodList s e = [] := periodList_nil s e h
  have hsub : ∀ ev, ev ∈ (download_realisasi env s e).events →
      ev ∈ (preLoop env).1 := by
    intro ev hm
    unfold download_realisasi at hm
    rcases hpe : preLoop env with ⟨tr, r⟩
    rw [hpe] at hm
    cases r with
    | error e' =>
      simp only [] at hm
      exact hm
    | ok u =>
      rw [hnil] at hm
      simp only [runLoop, List.append_nil] at hm
      exact hm
  have hres : (download_realisasi env s e).results = [] := by
    unfold download_realisasi
    rcases hpe : preLoop env with ⟨tr, r⟩
    cases r with
    | error e' => simp
    | ok u => simp [hnil, runLoop]
  refine ⟨hres, ?_, ?_, ?_, ?_, ?_, ?_, ?_⟩
  · intro i t hm
    rcases preLoop_events_shape env _ (hsub _ hm) with h' | h' | h' | h' | h' | h' <;>
      simp at h'
  · intro i hm
    rcases preLoop_events_shape env _ (hsub _ hm) with h' | h' | h' | h' | h' | h' <;>
      simp at h'
  · intro i n hm
    rcases preLoop_events_shape env _ (hsub _ hm) with h' | h' | h' | h' | h' | h' <;>
      simp at h'
  · intro i hm
    rcases preLoop_events_shape env _ (hsub _ hm) with h' | h' | h' | h' | h' | h' <;>
      simp at h'
  · intro i t hm
    rcases preLoop_events_shape env _ (hsub _ hm) with h' | h' | h' | h' | h' | h' <;>
      simp at h'
  · intro i hm
    rcases preLoop_events_shape env _ (hsub _ hm) with h' | h' | h' | h' | h' | h' <;>
      simp at h'
  · intro hok
    unfold download_realisasi
    rcases hpe : preLoop env with ⟨tr, r⟩
    have htr : tr = (preLoop env).1 := by rw [hpe]
    have hskpd : Event.skpdClick ∈ (preLoop env).1 := by
      rw [preLoop_events_ok env hok]
      simp
    cases r with
    | error e' =>
      simp only []
      rw [htr]
      exact hskpd
    | ok u =>
      simp only [List.mem_append]
      exact Or.inl (htr ▸ hskpd)

/-- C4 witness: the all-success environment on the inverted range 2..1. -/
theorem C4_empty_range_witness :
    ((1 : Int) < 2) ∧
    ((download_realisasi okEnv 2 1).results = []
    ∧ (∀ i t, Event.bulanWait i t ∉ (download_realisasi okEnv 2 1).events)
    ∧ (∀ i, Event.bulanClick i ∉ (download_realisasi okEnv 2 1).events)
    ∧ (∀ i n, Event.bulanType i n ∉ (download_realisasi okEnv 2 1).events)
    ∧ (∀ i, Event.bulanPress i ∉ (download_realisasi okEnv 2 1).events)
    ∧ (∀ i t, Event.expectDownload i t ∉ (download_realisasi okEnv 2 1).events)
    ∧ (∀ i, Event.downloadBtnClick i ∉ (download_realisasi okEnv 2 1).events)
    ∧ (preLoopOk okEnv → Event.skpdClick ∈ (download_realisasi okEnv 2 1).events)) :=
  ⟨by decide, C4_empty_range okEnv 2 1 (by decide)⟩

/-- C9: a successful download of a visited valid period saves its
artifact at download_path of the run date and the period index — a pure
function of those two inputs — whose directory component is determined by
the run date alone and whose file name is determined by the fixed year
token and the period index alone. -/
theorem C9_output_path_deterministic (env : Env) (s e i : Int)
    (hpre : preLoopOk env) (hi : i ∈ periodList s e)
    (hm : 1 ≤ i ∧ i ≤ 12) (henv : env.period i = okPeriodEnv) :
    (i, DownloadAttemptResult.success (download_path env.runDate i))
        ∈ (download_realisasi env s e).results
    ∧ Event.saveAs (download_path env.runDate i)
        ∈ (download_realisasi env s e).events
    ∧ download_path env.runDate i =
        download_dir env.runDate ++ "/" ++ download_name i
    ∧ download_name i = "2024-" ++ pad2 i ++ "-Laporan Realisasi.xlsx" := by
  have hap := attemptPeriod_success env i hm henv
  rw [download_realisasi_run env s e hpre]
  refine ⟨?_, ?_, rfl, rfl⟩
  · refine List.mem_map.mpr ⟨i, hi, ?_⟩
    simp [hap]
  · simp only []
    refine List.mem_append.mpr (Or.inr ?_)
    refine runLoop_events_mem env _ i _ hi ?_
    rw [hap]
    simp

/-- C9 witness: the all-success environment on range 1..3, period 2. -/
theorem C9_output_path_deterministic_witness :
    (preLoopOk okEnv ∧ (2 : Int) ∈ periodList 1 3
      ∧ ((1 : Int) ≤ 2 ∧ (2 : Int) ≤ 12) ∧ okEnv.period 2 = okPeriodEnv) ∧
    (((2 : Int), DownloadAttemptResult.success (download_path okEnv.runDate 2))
        ∈ (download_realisasi okEnv 1 3).results
    ∧ Event.saveAs (download_path okEnv.runDate 2)
        ∈ (download_realisasi okEnv 1 3).events
    ∧ download_path okEnv.runDate 2 =
        download_dir okEnv.runDate ++ "/" ++ download_name 2
    ∧ download_name 2 = "2024-" ++ pad2 2 ++ "-Laporan Realisasi.xlsx") :=
  ⟨⟨by unfold preLoopOk; decide, by decide, by decide, by decide⟩,
   C9_output_path_deterministic okEnv 1 3 2 (by unfold preLoopOk; decide)
     (by decide) (by decide) (by decide)⟩

/-- C10: close_browser returns every field untouched, so a bot whose page
was set still has that same page handle afterwards; a subsequent
login_manual on the instance therefore skips _initialize_browser (no
browser launch happens) and navigates the stale closed page to the login
URL instead of creating a fresh browser. -/
theorem C10_close_browser_frame (cenv : CloseEnv) (menv : ManualEnv)
    (st : BotState) (p : Nat) (hp : st.page = some p) :
    (close_browser cenv st).2.1 = st
    ∧ (close_browser cenv st).2.1.page = some p
    ∧ (∀ h, Event.launchBrowser h ∉
        (login_manual menv (close_browser cenv st).2.1).1)
    ∧ Event.gotoUrl p _URL_LOGIN 120000 ∈
        (login_manual menv (close_browser cenv st).2.1).1 := by
  have hst := close_browser_state cenv st
  rw [hst]
  have hlm := login_manual_skip_init menv st p hp
  exact ⟨rfl, hp, hlm.1, hlm.2.1⟩

/-- Bot state after a successful _initialize_browser with fresh base 0:
browser handle 0, context handle 1, page handle 2. -/
def initializedState : BotState := ⟨some 0, some 1, some 2⟩

/-- Teardown environment in which both close calls succeed. -/
def okCloseEnv : CloseEnv := ⟨.ok (), .ok ()⟩

/-- Manual-login environment in which both primitive calls succeed. -/
def okManualEnv : ManualEnv := ⟨20, .ok (), .ok ()⟩

/-- C10 witness: an initialized bot, both closes succeeding. -/
theorem C10_close_browser_frame_witness :
    initializedState.page = some 2 ∧
    ((close_browser okCloseEnv initializedState).2.1 = initializedState
    ∧ (close_browser okCloseEnv initializedState).2.1.page = some 2
    ∧ (∀ h, Event.launchBrowser h ∉
        (login_manual okManualEnv (close_browser okCloseEnv initializedState).2.1).1)
    ∧ Event.gotoUrl 2 _URL_LOGIN 120000 ∈
        (login_manual okManualEnv (close_browser okCloseEnv initializedState).2.1).1) :=
  ⟨by decide,
   C10_close_browser_frame okCloseEnv okManualEnv initializedState 2 (by decide)⟩

/-- Teardown environment in which closing the context raises. -/
def ctxCrashEnv : CloseEnv := ⟨.error (.other "context crash"), .ok ()⟩

/-- C8 counterexample: on an initialized bot whose context close raises,
close_browser propagates the exception and the browser close (handle 0) is
never attempted: the releases are guarded against absence only, not
against failure, so a failing context release does prevent the browser
release, and the call raises. -/
theorem C8_counterexample :
    (close_browser ctxCrashEnv initializedState).2.2 =
      .error (.other "context crash")
    ∧ Event.browserClose 0 ∉ (close_browser ctxCrashEnv initializedState).1
    ∧ (close_browser ctxCrashEnv initializedState).1 = [Event.contextClose 1] := by
  refine ⟨?_, ?_, ?_⟩ <;> decide

/-- C8 amended: close_browser releases the context and then the browser,
each release guarded against absence of its handle, so absence of one
never prevents attempting the other, and with no session ever initialized
it performs no call and returns normally; provided the underlying close
calls themselves do not raise, the call does not raise and a second call
in succession does not raise either.  (A raising release, by contrast,
propagates and skips the remaining release, as the counterexample shows.) -/
theorem C8_close_browser_guarded (env : CloseEnv) (st : BotState)
    (hc : env.contextClose = Except.ok ()) (hb : env.browserClose = Except.ok ()) :
    close_browser env SIPDBot_init = ([], SIPDBot_init, Except.ok ())
    ∧ (close_browser env st).2.1 = st
    ∧ (close_browser env st).2.2 = Except.ok ()
    ∧ (close_browser env (close_browser env st).2.1).2.2 = Except.ok ()
    ∧ (st.context = none → st.browser = none → (close_browser env st).1 = [])
    ∧ (∀ b, st.context = none → st.browser = some b →
        (close_browser env st).1 = [Event.browserClose b])
    ∧ (∀ c, st.context = some c → st.browser = none →
        (close_browser env st).1 = [Event.contextClose c])
    ∧ (∀ c b, st.context = some c → st.browser = some b →
        (close_browser env st).1 = [Event.contextClose c, Event.browserClose b]) := by
  have hok : ∀ st' : BotState, (close_browser env st').2.2 = Except.ok () := by
    intro st'
    unfold close_browser
    rcases st'.context with _ | c <;> rcases st'.browser with _ | b <;>
      simp [hc, hb]
  refine ⟨?_, close_browser_state env st, hok st, hok _, ?_, ?_, ?_, ?_⟩
  · unfold close_browser SIPDBot_init
    simp
  · intro h1 h2
    unfold close_browser
    rw [h1, h2]
  · intro b h1 h2
    unfold close_browser
    rw [h1, h2]
    simp [hb]
  · intro c h1 h2
    unfold close_browser
    rw [h1]
    simp [hc, h2]
  · intro c b h1 h2
    unfold close_browser
    rw [h1]
    simp [hc, hb, h2]

/-- C8 witness: an initialized bot with both close calls succeeding. -/
theorem C8_close_browser_guarded_witness :
    (okCloseEnv.contextClose = Except.ok ()
      ∧ okCloseEnv.browserClose = Except.ok ()) ∧
    (close_browser okCloseEnv SIPDBot_init = ([], SIPDBot_init, Except.ok ())
    ∧ (close_browser okCloseEnv initializedState).2.1 = initializedState
    ∧ (close_browser okCloseEnv initializedState).2.2 = Except.ok ()
    ∧ (close_browser okCloseEnv
        (close_browser okCloseEnv initializedState).2.1).2.2 = Except.ok ()
    ∧ (initializedState.context = none → initializedState.browser = none →
        (close_browser okCloseEnv initializedState).1 = [])
    ∧ (∀ b, initializedState.context = none → initializedState.browser = some b →
        (close_browser okCloseEnv initializedState).1 = [Event.browserClose b])
    ∧ (∀ c, initializedState.context = some c → initializedState.browser = none →
        (close_browser okCloseEnv initializedState).1 = [Event.contextClose c])
    ∧ (∀ c b, initializedState.context = some c →
        initializedState.browser = some b →
        (close_browser okCloseEnv initializedState).1 =
          [Event.contextClose c, Event.browserClose b])) :=
  ⟨⟨by decide, by decide⟩,
   C8_close_browser_guarded okCloseEnv initializedState (by decide) (by decide)⟩

/-- Cookie environment whose cookies.json holds invalid JSON. -/
def malformedCookiesEnv : CookiesEnv := ⟨10, .jsonDecodeError, .ok (), .ok ()⟩

/-- Cookie environment whose cookies.json is missing. -/
def missingCookiesEnv : CookiesEnv := ⟨10, .fileNotFound, .ok (), .ok ()⟩

/-- C7: on an initialized bot a malformed cookies.json takes the
json.JSONDecodeError branch, whose outcome is distinct from the
missing-file branch; no interaction happens (in particular no teardown:
the session fields are returned unchanged and the trace is empty), and a
subsequent login_manual on the same instance succeeds.  But the method
returns normally with only a printed diagnostic: no exception or error
value reaches the caller, although the docstring of login_with_cookies
documents raising json.JSONDecodeError on invalid JSON. -/
theorem C7_malformed_cookies_swallowed :
    login_with_cookies malformedCookiesEnv initializedState =
      ([], initializedState, .formatError)
    ∧ (login_with_cookies missingCookiesEnv initializedState).2.2 = .sourceMissing
    ∧ CookieOutcome.formatError ≠ CookieOutcome.sourceMissing
    ∧ (login_manual okManualEnv
        (login_with_cookies malformedCookiesEnv initializedState).2.1).2.2 =
      Except.ok () := by
  refine ⟨?_, ?_, ?_, ?_⟩ <;> decide
